import Mathlib

/-!
Shallow embedding of `s3data_sync.py`, a FastAPI service that uploads files
to an S3 bucket.  Pure values model the request data; the S3 client is an
oracle parameter `store : PutCall → Except PyExc Unit` (the outcome of each
`put_object` network call), so handlers become pure functions returning the
HTTP response together with the list of `put_object` calls they issued.
-/

namespace S3Sync

/-- Startup configuration read from the environment (`S3_BUCKET_NAME`,
`AWS_REGION`); fixed at process start, never request-controlled. -/
structure Config where
  bucket : String
  region : String
deriving Repr, DecidableEq

/-- A FastAPI `UploadFile`: `filename` and `content_type` are `Optional[str]`
in Python, the body bytes are what `await file.read()` returns (modelled as a
list of bytes; only the length is observed by the handlers). -/
structure UFile where
  filename : Option String
  content : List Nat
  contentType : Option String
deriving Repr, DecidableEq

/-- One `s3_client.put_object(...)` call as issued by a handler: the keyword
arguments `Bucket`, `Key`, `Body`, `ContentType`, and (when passed) `ACL`.
`Key` is `Option String` because the code can pass `file.filename`, which may
be Python `None`. -/
structure PutCall where
  bucket : String
  key : Option String
  body : List Nat
  contentType : Option String
  acl : Option String
deriving Repr, DecidableEq

/-- A `botocore` `ClientError`'s observable data: `e.response['Error']['Code']`
and `e.response['Error']['Message']` (each possibly absent), plus the name of
the S3 operation that failed (used by `str(e)`). -/
structure ClientErr where
  code : Option String
  message : Option String
  opName : String
deriving Repr, DecidableEq

/-- An exception escaping `s3_client.put_object`: either a `botocore`
`ClientError` or any other Python exception carrying its `str(e)` rendering. -/
inductive PyExc where
  | clientError (e : ClientErr)
  | other (strE : String)
deriving Repr, DecidableEq

/-- Python f-string interpolation of an `Optional[str]`: `None` renders as
the four characters `"None"`. -/
def pyStr : Option String → String
  | none => "None"
  | some s => s

/-- Modelled from the spec: `str(e)` for a `botocore` `ClientError` is missing
from `src/` (it lives in the provider SDK).  The spec says the provider error
is "reduced to a plain string" carrying provider code/message; botocore's
template is `"An error occurred ({code}) when calling the {op} operation:
{message}"`, which is never empty. -/
def ClientErr.str (e : ClientErr) : String :=
  "An error occurred (" ++ (e.code.getD "Unknown") ++ ") when calling the "
    ++ e.opName ++ " operation: " ++ (e.message.getD "Unknown")

/-- Python `str(e)` of an exception value in our model. -/
def PyExc.str : PyExc → String
  | .clientError e => e.str
  | .other s => s

/-- `folder.rstrip('/')` on the character list: drop every trailing `'/'`. -/
def rstripSlashList (cs : List Char) : List Char :=
  cs.rdropWhile (fun c => c = '/')

/-- `folder.rstrip('/')`: strip all trailing path separators. -/
def rstripSlash (s : String) : String :=
  ⟨rstripSlashList s.data⟩

/-- The reassignment `folder = folder.rstrip('/') + '/'` performed by both
handlers when `folder` is truthy. -/
def normFolder (f : String) : String :=
  rstripSlash f ++ "/"

/-- The S3 key both handlers construct (lines 91–96 and 160–164 of the
source): when `folder` is truthy (present and non-empty), normalize it and
prefix it to the f-string rendering of `file.filename`; otherwise the key is
`file.filename` itself (possibly Python `None`). -/
def s3KeyOf (folder : Option String) (filename : Option String) : Option String :=
  match folder with
  | some f => if f = "" then filename else some (normFolder f ++ pyStr filename)
  | none => filename

/-- The public URL template of the source:
`https://{bucket}.s3.{region}.amazonaws.com/{key}` (bucket and region from
fixed configuration). -/
def fileUrl (cfg : Config) (key : Option String) : String :=
  "https://" ++ cfg.bucket ++ ".s3." ++ cfg.region ++ ".amazonaws.com/" ++ pyStr key

/-- The JSON body of a successful single-file upload (lines 110–122). -/
structure UploadOk where
  message : String
  filename : Option String
  s3Key : Option String
  bucket : String
  url : String
  contentType : Option String
  size : Nat
deriving Repr, DecidableEq

/-- Outcome of the single-file handler: a 200 `JSONResponse` or an
`HTTPException(status_code, detail)`. -/
inductive SingleResult where
  | success (status : Nat) (body : UploadOk)
  | httpError (status : Nat) (detail : String)
deriving Repr, DecidableEq

/-- The `except` clauses of `upload_file` (lines 124–136): a `ClientError`
becomes `"S3 upload failed: {code} - {message}"` with the provider's code
(default `"Unknown"`) and message (default `str(e)`); any other exception
becomes `"Upload failed: {str(e)}"`. -/
def uploadFailDetail : PyExc → String
  | .clientError e =>
      "S3 upload failed: " ++ (e.code.getD "Unknown") ++ " - "
        ++ (e.message.getD (ClientErr.str e))
  | .other s => "Upload failed: " ++ s

/-- The `put_object` call issued by `upload_file` (lines 99–105): note the
`ACL='public-read'` keyword. -/
def singlePut (cfg : Config) (file : UFile) (folder : Option String) : PutCall :=
  { bucket := cfg.bucket
    key := s3KeyOf folder file.filename
    body := file.content
    contentType := file.contentType
    acl := some "public-read" }

/-- `POST /upload` (`upload_file`, lines 74–136): read the body, build the
key, call `put_object`, and either return the 200 JSON body or translate the
exception into a 500 `HTTPException`.  Returns the response together with the
list of `put_object` calls issued. -/
def uploadFile (cfg : Config) (store : PutCall → Except PyExc Unit)
    (file : UFile) (folder : Option String) : SingleResult × List PutCall :=
  let key := s3KeyOf folder file.filename
  let call := singlePut cfg file folder
  match store call with
  | .ok _ =>
      (.success 200
        { message := "File uploaded successfully"
          filename := file.filename
          s3Key := key
          bucket := cfg.bucket
          url := fileUrl cfg key
          contentType := file.contentType
          size := file.content.length },
       [call])
  | .error e => (.httpError 500 (uploadFailDetail e), [call])

/-- One entry of the `results` list of the batch handler (lines 176–181). -/
structure SuccessEntry where
  filename : Option String
  status : String
  s3Key : Option String
  url : String
deriving Repr, DecidableEq

/-- One entry of the `errors` list of the batch handler (lines 184–188). -/
structure ErrorEntry where
  filename : Option String
  status : String
  error : String
deriving Repr, DecidableEq

/-- The mutable locals of the batch loop: the `folder` variable (reassigned
inside the loop body) plus the `results`, `errors`, and issued `put_object`
call accumulators. -/
structure BatchState where
  folder : Option String
  results : List SuccessEntry
  errors : List ErrorEntry
  puts : List PutCall
deriving Repr, DecidableEq

/-- The reassignment of the `folder` local done by one batch iteration:
only a truthy (present, non-empty) folder is rewritten to
`folder.rstrip('/') + '/'`. -/
def folderStep : Option String → Option String
  | some f => if f = "" then some f else some (normFolder f)
  | none => none

/-- The `put_object` call issued by one batch iteration (lines 167–172):
same keyword arguments as the single-file path except that no `ACL` is
passed. -/
def batchPut (cfg : Config) (folder : Option String) (file : UFile) : PutCall :=
  { bucket := cfg.bucket
    key := s3KeyOf folder file.filename
    body := file.content
    contentType := file.contentType
    acl := none }

/-- One iteration of the `for file in files` loop of
`upload_multiple_files` (lines 154–188): normalize the folder, build the
key, call `put_object` without an ACL, and append either a success entry or
(for any exception) a failure entry carrying `str(e)`. -/
def batchStep (cfg : Config) (store : PutCall → Except PyExc Unit)
    (st : BatchState) (file : UFile) : BatchState :=
  let key := s3KeyOf st.folder file.filename
  let call := batchPut cfg st.folder file
  match store call with
  | .ok _ =>
      { folder := folderStep st.folder
        results := st.results ++
          [{ filename := file.filename, status := "success", s3Key := key
             url := fileUrl cfg key }]
        errors := st.errors
        puts := st.puts ++ [call] }
  | .error e =>
      { folder := folderStep st.folder
        results := st.results
        errors := st.errors ++
          [{ filename := file.filename, status := "failed", error := e.str }]
        puts := st.puts ++ [call] }

/-- The JSON body of the batch response together with its HTTP status
(lines 190–199). -/
structure BatchResp where
  status : Nat
  message : String
  successful : Nat
  failed : Nat
  results : List SuccessEntry
  errors : List ErrorEntry
deriving Repr, DecidableEq

/-- `POST /upload-multiple` (`upload_multiple_files`, lines 139–199):
process the files in caller order, accumulating per-file successes and
failures, and always answer with a 200 `JSONResponse` summarizing both.
Returns the response together with the list of `put_object` calls issued. -/
def uploadMultipleFiles (cfg : Config) (store : PutCall → Except PyExc Unit)
    (files : List UFile) (folder : Option String) : BatchResp × List PutCall :=
  let st := files.foldl (batchStep cfg store)
    { folder := folder, results := [], errors := [], puts := [] }
  ({ status := 200
     message := "Processed " ++ toString files.length ++ " file(s)"
     successful := st.results.length
     failed := st.errors.length
     results := st.results
     errors := st.errors }, st.puts)

/-- The JSON body returned by `GET /health` (lines 55–71): a dict with a
`status` and `bucket` field and, depending on the branch, a `connection` or
an `error` field. -/
structure HealthBody where
  status : String
  bucket : String
  connection : Option String
  error : Option String
deriving Repr, DecidableEq

/-- `GET /health` (`health_check`, lines 55–71): call
`s3_client.head_bucket`; on success report healthy, on `ClientError` report
unhealthy with `str(e)` — in both branches a plain dict is returned, which
FastAPI serves with HTTP status 200.  The oracle `head` gives the outcome of
the `head_bucket` call on the configured bucket. -/
def healthCheck (cfg : Config) (head : String → Except ClientErr Unit) :
    Nat × HealthBody :=
  match head cfg.bucket with
  | .ok _ =>
      (200, { status := "healthy", bucket := cfg.bucket
              connection := some "success", error := none })
  | .error e =>
      (200, { status := "unhealthy", bucket := cfg.bucket
              connection := none, error := some e.str })

/-- What one file contributes to the `results` list, as a function of the
original folder value (thanks to normalization idempotence). -/
def batchSucc (cfg : Config) (store : PutCall → Except PyExc Unit)
    (folder : Option String) (file : UFile) : Option SuccessEntry :=
  match store (batchPut cfg folder file) with
  | .ok _ => some { filename := file.filename, status := "success"
                    s3Key := s3KeyOf folder file.filename
                    url := fileUrl cfg (s3KeyOf folder file.filename) }
  | .error _ => none

/-- What one file contributes to the `errors` list. -/
def batchErr (cfg : Config) (store : PutCall → Except PyExc Unit)
    (folder : Option String) (file : UFile) : Option ErrorEntry :=
  match store (batchPut cfg folder file) with
  | .ok _ => none
  | .error e => some { filename := file.filename, status := "failed", error := e.str }

/-! ### Helper lemmas: folder normalization algebra -/

lemma rstripSlash_idem (s : String) : rstripSlash (rstripSlash s) = rstripSlash s := by
  apply String.ext
  simp [rstripSlash, rstripSlashList, List.rdropWhile_idempotent]

lemma rstripSlash_append_slash (s : String) :
    rstripSlash (s ++ "/") = rstripSlash s := by
  apply String.ext
  have hdata : (s ++ "/").data = s.data ++ ['/'] := String.data_append s "/"
  simp [rstripSlash, rstripSlashList, hdata,
    List.rdropWhile_concat_pos (fun c => c = '/') s.data '/' (by decide)]

lemma rstripSlash_normFolder (f : String) :
    rstripSlash (normFolder f) = rstripSlash f := by
  simp [normFolder, rstripSlash_append_slash, rstripSlash_idem]

lemma normFolder_normFolder (f : String) :
    normFolder (normFolder f) = normFolder f := by
  show rstripSlash (normFolder f) ++ "/" = normFolder f
  rw [rstripSlash_normFolder]
  rfl

lemma normFolder_ne_empty (f : String) : normFolder f ≠ "" := by
  intro h
  have : (normFolder f).data = ("" : String).data := by rw [h]
  rw [show (normFolder f).data = (rstripSlash f).data ++ ['/'] from
    String.data_append (rstripSlash f) "/"] at this
  simp at this

/-- The no-trailing-separator property of the stripped folder: its last
character is never `'/'`. -/
lemma rstripSlash_getLast_ne (s : String) :
    (rstripSlash s).data.getLast? ≠ some '/' := by
  intro h
  rcases hl : (rstripSlash s).data with _ | ⟨c, cs⟩
  · rw [hl] at h; simp at h
  · have hne : (rstripSlash s).data ≠ [] := by rw [hl]; simp
    have hne' : List.rdropWhile (fun c => c = '/') s.data ≠ [] := hne
    have hnot := List.rdropWhile_last_not (fun c => c = '/') s.data hne'
    have : (rstripSlash s).data.getLast hne = '/' := by
      rw [List.getLast?_eq_getLast _ hne] at h
      exact Option.some_injective _ h
    simp only [rstripSlash, rstripSlashList] at this
    rw [this] at hnot
    simp at hnot

/-! ### Helper lemmas: the batch loop -/

lemma s3KeyOf_folderStep (x : Option String) (fn : Option String) :
    s3KeyOf (folderStep x) fn = s3KeyOf x fn := by
  match x with
  | none => rfl
  | some f =>
      by_cases hf : f = ""
      · simp [folderStep, hf]
      · simp [folderStep, hf, s3KeyOf, normFolder_ne_empty f, normFolder_normFolder]

lemma batchPut_folderStep (cfg : Config) (x : Option String) (file : UFile) :
    batchPut cfg (folderStep x) file = batchPut cfg x file := by
  simp [batchPut, s3KeyOf_folderStep]

lemma batchSucc_folderStep (cfg : Config) (store : PutCall → Except PyExc Unit)
    (x : Option String) :
    batchSucc cfg store (folderStep x) = batchSucc cfg store x := by
  funext file
  simp [batchSucc, batchPut_folderStep, s3KeyOf_folderStep]

lemma batchErr_folderStep (cfg : Config) (store : PutCall → Except PyExc Unit)
    (x : Option String) :
    batchErr cfg store (folderStep x) = batchErr cfg store x := by
  funext file
  simp [batchErr, batchPut_folderStep]

/-- Characterization of the batch loop: starting from any state, the loop
appends exactly one entry per file — a success entry or an error entry
depending on that file's `put_object` outcome — in caller order, and issues
exactly one `put_object` call per file. -/
lemma batchLoop_spec (cfg : Config) (store : PutCall → Except PyExc Unit)
    (files : List UFile) : ∀ st : BatchState,
    ((files.foldl (batchStep cfg store) st).results
        = st.results ++ files.filterMap (batchSucc cfg store st.folder))
    ∧ ((files.foldl (batchStep cfg store) st).errors
        = st.errors ++ files.filterMap (batchErr cfg store st.folder))
    ∧ ((files.foldl (batchStep cfg store) st).puts
        = st.puts ++ files.map (batchPut cfg st.folder)) := by
  induction files with
  | nil => intro st; simp
  | cons f fs ih =>
      intro st
      have hfold : (f :: fs).foldl (batchStep cfg store) st
          = fs.foldl (batchStep cfg store) (batchStep cfg store st f) :=
        List.foldl_cons _ _
      obtain ⟨ihr, ihe, ihp⟩ := ih (batchStep cfg store st f)
      have hfolder : (batchStep cfg store st f).folder = folderStep st.folder := by
        cases hst : store (batchPut cfg st.folder f) <;> simp [batchStep, hst]
      rw [hfolder, batchSucc_folderStep] at ihr
      rw [hfolder, batchErr_folderStep] at ihe
      rw [hfolder] at ihp
      have hmap : fs.map (batchPut cfg (folderStep st.folder))
          = fs.map (batchPut cfg st.folder) := by
        apply List.map_congr_left
        intro a _
        exact batchPut_folderStep cfg st.folder a
      rw [hmap] at ihp
      refine ⟨?_, ?_, ?_⟩ <;>
        cases hst : store (batchPut cfg st.folder f)
      · rw [hfold, ihr]
        simp [batchStep, batchSucc, hst]
      · rw [hfold, ihr]
        simp [batchStep, batchSucc, hst]
      · rw [hfold, ihe]
        simp [batchStep, batchErr, hst]
      · rw [hfold, ihe]
        simp [batchStep, batchErr, hst]
      · rw [hfold, ihp]
        simp [batchStep, hst]
      · rw [hfold, ihp]
        simp [batchStep, hst]

/-- The batch handler, as a whole: per-file results, errors, and issued
`put_object` calls are in-order images of the input list under fixed
per-file functions of the original folder argument. -/
lemma uploadMultipleFiles_spec (cfg : Config) (store : PutCall → Except PyExc Unit)
    (files : List UFile) (folder : Option String) :
    ((uploadMultipleFiles cfg store files folder).1.results
        = files.filterMap (batchSucc cfg store folder))
    ∧ ((uploadMultipleFiles cfg store files folder).1.errors
        = files.filterMap (batchErr cfg store folder))
    ∧ ((uploadMultipleFiles cfg store files folder).2
        = files.map (batchPut cfg folder)) := by
  obtain ⟨hr, he, hp⟩ := batchLoop_spec cfg store files
    { folder := folder, results := [], errors := [], puts := [] }
  refine ⟨?_, ?_, ?_⟩
  · simpa [uploadMultipleFiles] using hr
  · simpa [uploadMultipleFiles] using he
  · simpa [uploadMultipleFiles] using hp

/-- The modelled `str(e)` of a `ClientError` is never the empty string. -/
lemma ClientErr_str_ne_empty (e : ClientErr) : e.str ≠ "" := by
  intro h
  have hlen := congrArg String.length h
  simp only [ClientErr.str, String.length_append] at hlen
  have h19 : ("An error occurred (" : String).length = 19 := by decide
  have h0 : ("" : String).length = 0 := by decide
  rw [h19, h0] at hlen
  omega

/-- Each file feeds exactly one of the two report lists, so the lengths add
up to the number of files. -/
lemma length_batchSucc_add_batchErr (cfg : Config)
    (store : PutCall → Except PyExc Unit) (folder : Option String)
    (files : List UFile) :
    (files.filterMap (batchSucc cfg store folder)).length
      + (files.filterMap (batchErr cfg store folder)).length = files.length := by
  induction files with
  | nil => rfl
  | cons f fs ih =>
      cases hst : store (batchPut cfg folder f) <;>
        simp [List.filterMap_cons, batchSucc, batchErr, hst] <;> omega

/-- The single-file handler always issues exactly the one `put_object` call
described by `singlePut`, whatever the storage outcome. -/
lemma uploadFile_puts (cfg : Config) (store : PutCall → Except PyExc Unit)
    (file : UFile) (folder : Option String) :
    (uploadFile cfg store file folder).2 = [singlePut cfg file folder] := by
  cases hst : store (singlePut cfg file folder) <;> simp [uploadFile, hst]

/-! ### Claim theorems -/

/-- Claim C1: for every folder string, with or without trailing path
separators, the storage key built by the upload handlers is the folder
stripped of trailing separators, followed by exactly one separator (the
stripped folder never ends in one), followed by the file name; and when the
folder is absent or empty the key equals the file name unchanged. -/
theorem key_construction (cfg : Config) (store : PutCall → Except PyExc Unit)
    (f fn : String) (hf : f ≠ "") (file : UFile) (files : List UFile)
    (folder : Option String) :
    s3KeyOf none (some fn) = some fn
    ∧ s3KeyOf (some "") (some fn) = some fn
    ∧ s3KeyOf (some f) (some fn) = some (rstripSlash f ++ "/" ++ fn)
    ∧ (rstripSlash f).data.getLast? ≠ some '/'
    ∧ ((uploadFile cfg store file folder).2.map PutCall.key
        = [s3KeyOf folder file.filename])
    ∧ ((uploadMultipleFiles cfg store files folder).2.map PutCall.key
        = files.map fun fl => s3KeyOf folder fl.filename) := by
  refine ⟨rfl, by simp [s3KeyOf], ?_, rstripSlash_getLast_ne f, ?_, ?_⟩
  · simp [s3KeyOf, hf, normFolder, pyStr, String.append_assoc]
  · rw [uploadFile_puts]
    simp [singlePut]
  · rw [(uploadMultipleFiles_spec cfg store files folder).2.2]
    simp [batchPut]

/-- Claim C1, instantiated: folder `"docs//"` with file `"a.pdf"` yields
the key `"docs/a.pdf"`. -/
theorem key_construction_check :
    s3KeyOf (some "docs//") (some "a.pdf") = some "docs/a.pdf" := by
  have h := key_construction ⟨"study2material", "eu-north-1"⟩ (fun _ => .ok ())
    "docs//" "a.pdf" (by decide) ⟨some "a.txt", [0], some "text/plain"⟩ [] none
  rw [h.2.2.1]
  decide

/-- Claim C9: the key builder is a pure, deterministic total function of
(folder, fileName): equal inputs give equal outputs, and the key a handler
builds depends on nothing else in the request, the configuration, or the
storage oracle. -/
theorem key_builder_deterministic (cfg cfg' : Config)
    (store store' : PutCall → Except PyExc Unit) (file file' : UFile)
    (folder : Option String) (hfn : file.filename = file'.filename) :
    s3KeyOf folder file.filename = s3KeyOf folder file'.filename
    ∧ ((uploadFile cfg store file folder).2.map PutCall.key
        = (uploadFile cfg' store' file' folder).2.map PutCall.key) := by
  constructor
  · rw [hfn]
  · rw [uploadFile_puts, uploadFile_puts]
    simp [singlePut, hfn]

/-- Claim C9, instantiated: two evaluations on identical inputs coincide,
even under different configurations and storage oracles. -/
theorem key_builder_deterministic_check :
    s3KeyOf (some "docs") (some "a.pdf") = s3KeyOf (some "docs") (some "a.pdf") :=
  (key_builder_deterministic ⟨"b", "r"⟩ ⟨"c", "s"⟩ (fun _ => .ok ())
    (fun _ => .error (.other "boom")) ⟨some "a.pdf", [], none⟩
    ⟨some "a.pdf", [1, 2], some "t"⟩ (some "docs") rfl).1

/-- Claim C6: the batch upload response always has HTTP status 200,
regardless of how many per-file uploads fail (including all of them);
failures are reported only inside the JSON body. -/
theorem batch_transport_success (cfg : Config)
    (store : PutCall → Except PyExc Unit) (files : List UFile)
    (folder : Option String) :
    (uploadMultipleFiles cfg store files folder).1.status = 200 := by
  simp [uploadMultipleFiles]

/-- Claim C10: each input file contributes exactly one entry to exactly one
of the two report lists, so successful + failed equals the number of files
supplied, and the message reports that same count. -/
theorem batch_counts (cfg : Config) (store : PutCall → Except PyExc Unit)
    (files : List UFile) (folder : Option String) :
    (uploadMultipleFiles cfg store files folder).1.successful
      + (uploadMultipleFiles cfg store files folder).1.failed
      = files.length
    ∧ (uploadMultipleFiles cfg store files folder).1.message
      = "Processed " ++ toString files.length ++ " file(s)" := by
  constructor
  · obtain ⟨hr, he, -⟩ := uploadMultipleFiles_spec cfg store files folder
    have hs : (uploadMultipleFiles cfg store files folder).1.successful
        = (uploadMultipleFiles cfg store files folder).1.results.length := rfl
    have hf : (uploadMultipleFiles cfg store files folder).1.failed
        = (uploadMultipleFiles cfg store files folder).1.errors.length := rfl
    rw [hs, hf, hr, he]
    exact length_batchSucc_add_batchErr cfg store folder files
  · simp [uploadMultipleFiles]

/-- Claim C2 as stated is false on the code: a single-file request whose
payload has no associated file name is not rejected by any validation — the
handler still performs a storage write (with key `None`) and even reports
success when the provider accepts it. -/
theorem missing_filename_not_rejected :
    (uploadFile ⟨"study2material", "eu-north-1"⟩ (fun _ => .ok ())
        ⟨none, [104, 105], some "text/plain"⟩ none).2.length = 1
    ∧ (uploadFile ⟨"study2material", "eu-north-1"⟩ (fun _ => .ok ())
        ⟨none, [104, 105], some "text/plain"⟩ none).1
      = .success 200
          { message := "File uploaded successfully"
            filename := none
            s3Key := none
            bucket := "study2material"
            url := "https://study2material.s3.eu-north-1.amazonaws.com/None"
            contentType := some "text/plain"
            size := 2 } := by
  decide

/-- Claim C2 amended: the single-file handler performs no file-name
validation: for every request whose payload has no associated file name it
still issues exactly one storage write, whose key is `None` without a
truthy folder and the normalized folder followed by the text `"None"` with
one; any failure surfaces only through the generic 500 handling, never as a
validation rejection. -/
theorem missing_filename_amended (cfg : Config)
    (store : PutCall → Except PyExc Unit) (file : UFile)
    (folder : Option String) (f : String) (hfn : file.filename = none)
    (hf : f ≠ "") :
    (uploadFile cfg store file folder).2.length = 1
    ∧ ((uploadFile cfg store file folder).2.map PutCall.key
        = [s3KeyOf folder none])
    ∧ s3KeyOf none none = none
    ∧ s3KeyOf (some f) none = some (normFolder f ++ "None") := by
  refine ⟨?_, ?_, rfl, by simp [s3KeyOf, hf, pyStr]⟩
  · rw [uploadFile_puts]
    rfl
  · rw [uploadFile_puts]
    simp [singlePut, hfn]

/-- Claim C2 amended, instantiated: a nameless payload with folder
`"docs/"` is written under the key `"docs/None"`. -/
theorem missing_filename_amended_check :
    (uploadFile ⟨"b", "r"⟩ (fun _ => .error (.other "boom"))
        ⟨none, [], none⟩ (some "docs/")).2.map PutCall.key
      = [some "docs/None"] := by
  have h := missing_filename_amended ⟨"b", "r"⟩ (fun _ => .error (.other "boom"))
    ⟨none, [], none⟩ (some "docs/") "docs/" rfl (by decide)
  rw [h.2.1]
  decide

/-- Claim C3: a successful single upload with payload bytes b, filename n,
content type c and no folder reports size equal to the byte length of b,
s3_key = n, content_type = c, and a url equal to the fixed template
https://{bucket}.s3.{region}.amazonaws.com/{key}, hence ending in "/" ++ n. -/
theorem successful_single_upload (cfg : Config)
    (store : PutCall → Except PyExc Unit) (file : UFile) (n c : String)
    (hn : file.filename = some n) (hc : file.contentType = some c)
    (hok : store (singlePut cfg file none) = .ok ()) :
    (uploadFile cfg store file none).1
      = .success 200
          { message := "File uploaded successfully"
            filename := some n
            s3Key := some n
            bucket := cfg.bucket
            url := "https://" ++ cfg.bucket ++ ".s3." ++ cfg.region
                     ++ ".amazonaws.com/" ++ n
            contentType := some c
            size := file.content.length }
    ∧ ∃ p, "https://" ++ cfg.bucket ++ ".s3." ++ cfg.region
             ++ ".amazonaws.com/" ++ n = p ++ "/" ++ n := by
  constructor
  · simp [uploadFile, hok, s3KeyOf, hn, hc, fileUrl, pyStr]
  · refine ⟨"https://" ++ cfg.bucket ++ ".s3." ++ cfg.region ++ ".amazonaws.com", ?_⟩
    have hfold : (".amazonaws.com" : String) ++ "/" = ".amazonaws.com/" := by decide
    rw [String.append_assoc _ ".amazonaws.com" "/", hfold]

/-- Claim C3, instantiated: a 10-byte "note.txt" of type text/plain with no
folder yields size 10, key "note.txt", and the expected url. -/
theorem successful_single_upload_check :
    (uploadFile ⟨"study2material", "eu-north-1"⟩ (fun _ => .ok ())
        ⟨some "note.txt", [0, 1, 2, 3, 4, 5, 6, 7, 8, 9], some "text/plain"⟩
        none).1
      = .success 200
          { message := "File uploaded successfully"
            filename := some "note.txt"
            s3Key := some "note.txt"
            bucket := "study2material"
            url := "https://study2material.s3.eu-north-1.amazonaws.com/note.txt"
            contentType := some "text/plain"
            size := 10 } := by
  have h := successful_single_upload ⟨"study2material", "eu-north-1"⟩
    (fun _ => .ok ())
    ⟨some "note.txt", [0, 1, 2, 3, 4, 5, 6, 7, 8, 9], some "text/plain"⟩
    "note.txt" "text/plain" rfl rfl rfl
  rw [h.1]
  decide

/-- Claim C4: a storage failure for one file never aborts processing of the
rest: the batch handler issues exactly one storage call per input file, and
the success and failure entry lists are the in-order projections of the
input files through their individual storage outcomes, so both preserve the
caller-supplied order. -/
theorem batch_failure_isolation (cfg : Config)
    (store : PutCall → Except PyExc Unit) (files : List UFile)
    (folder : Option String) :
    ((uploadMultipleFiles cfg store files folder).2
        = files.map (batchPut cfg folder))
    ∧ ((uploadMultipleFiles cfg store files folder).1.results
        = files.filterMap (batchSucc cfg store folder))
    ∧ ((uploadMultipleFiles cfg store files folder).1.errors
        = files.filterMap (batchErr cfg store folder)) := by
  obtain ⟨hr, he, hp⟩ := uploadMultipleFiles_spec cfg store files folder
  exact ⟨hp, hr, he⟩

/-- Claim C5: when the single-file storage write fails, the handler responds
500; for a provider ClientError the detail is
"S3 upload failed: {code} - {message}" with the provider-supplied code and
message, and for any other exception it is "Upload failed: {str(e)}". -/
theorem single_upload_failure_detail (cfg : Config)
    (store : PutCall → Except PyExc Unit) (file : UFile)
    (folder : Option String) (e : ClientErr) (code msg s : String) :
    (store (singlePut cfg file folder) = .error (.clientError e) →
      e.code = some code → e.message = some msg →
      (uploadFile cfg store file folder).1
        = .httpError 500 ("S3 upload failed: " ++ code ++ " - " ++ msg))
    ∧ (store (singlePut cfg file folder) = .error (.other s) →
      (uploadFile cfg store file folder).1
        = .httpError 500 ("Upload failed: " ++ s)) := by
  constructor
  · intro hst hcode hmsg
    simp [uploadFile, hst, uploadFailDetail, hcode, hmsg]
  · intro hst
    simp [uploadFile, hst, uploadFailDetail]

/-- Claim C5, instantiated: an AccessDenied ClientError yields the detail
"S3 upload failed: AccessDenied - Access Denied". -/
theorem single_upload_failure_detail_check :
    (uploadFile ⟨"study2material", "eu-north-1"⟩
        (fun _ => .error (.clientError
          ⟨some "AccessDenied", some "Access Denied", "PutObject"⟩))
        ⟨some "a.txt", [1], some "text/plain"⟩ none).1
      = .httpError 500 "S3 upload failed: AccessDenied - Access Denied" := by
  have h := (single_upload_failure_detail ⟨"study2material", "eu-north-1"⟩
    (fun _ => .error (.clientError
      ⟨some "AccessDenied", some "Access Denied", "PutObject"⟩))
    ⟨some "a.txt", [1], some "text/plain"⟩ none
    ⟨some "AccessDenied", some "Access Denied", "PutObject"⟩
    "AccessDenied" "Access Denied" "x").1 rfl rfl rfl
  rw [h]
  decide

/-- Claim C7: the health operation reports healthy with the bucket name when
head_bucket succeeds; on a provider ClientError it reports unhealthy with
the bucket name and a non-empty error string, and the HTTP status is 200 in
both cases. -/
theorem health_check_reflects_storage (cfg : Config)
    (head : String → Except ClientErr Unit) (e : ClientErr) :
    (head cfg.bucket = .ok () →
      healthCheck cfg head
        = (200, { status := "healthy", bucket := cfg.bucket
                  connection := some "success", error := none }))
    ∧ (head cfg.bucket = .error e →
      healthCheck cfg head
        = (200, { status := "unhealthy", bucket := cfg.bucket
                  connection := none, error := some e.str })
      ∧ e.str ≠ "") := by
  constructor
  · intro h
    simp [healthCheck, h]
  · intro h
    exact ⟨by simp [healthCheck, h], ClientErr_str_ne_empty e⟩

/-- Claim C7, instantiated: a HeadBucket ClientError yields an unhealthy
report with the bucket name, a non-empty error string, and status 200. -/
theorem health_check_reflects_storage_check :
    healthCheck ⟨"study2material", "eu-north-1"⟩
        (fun _ => .error ⟨some "404", some "Not Found", "HeadBucket"⟩)
      = (200,
         { status := "unhealthy", bucket := "study2material"
           connection := none
           error := some
             "An error occurred (404) when calling the HeadBucket operation: Not Found" }) := by
  have h := (health_check_reflects_storage ⟨"study2material", "eu-north-1"⟩
    (fun _ => .error ⟨some "404", some "Not Found", "HeadBucket"⟩)
    ⟨some "404", some "Not Found", "HeadBucket"⟩).2 rfl
  rw [h.1]
  decide

/-- Claim C8: every storage write issued by the single-file path sets the
public-read ACL, every write issued by the batch path omits it, and for the
same file and folder the two paths' calls agree on every other put_object
parameter. -/
theorem acl_asymmetry (cfg : Config)
    (store store' : PutCall → Except PyExc Unit) (file : UFile)
    (files : List UFile) (folder : Option String) :
    (∀ p ∈ (uploadFile cfg store file folder).2, p.acl = some "public-read")
    ∧ (∀ p ∈ (uploadMultipleFiles cfg store' files folder).2, p.acl = none)
    ∧ (singlePut cfg file folder).bucket = (batchPut cfg folder file).bucket
    ∧ (singlePut cfg file folder).key = (batchPut cfg folder file).key
    ∧ (singlePut cfg file folder).body = (batchPut cfg folder file).body
    ∧ (singlePut cfg file folder).contentType
        = (batchPut cfg folder file).contentType := by
  refine ⟨?_, ?_, rfl, rfl, rfl, rfl⟩
  · intro p hp
    rw [uploadFile_puts] at hp
    simp at hp
    rw [hp]
    rfl
  · intro p hp
    rw [(uploadMultipleFiles_spec cfg store' files folder).2.2] at hp
    simp [List.mem_map] at hp
    obtain ⟨fl, -, rfl⟩ := hp
    rfl

/-- Claim C8, instantiated: the single-path call for a concrete file carries
the public-read ACL. -/
theorem acl_asymmetry_check :
    (singlePut ⟨"b", "r"⟩ ⟨some "a.txt", [1], some "t"⟩ none).acl
      = some "public-read" :=
  (acl_asymmetry ⟨"b", "r"⟩ (fun _ => .ok ()) (fun _ => .ok ())
      ⟨some "a.txt", [1], some "t"⟩ [] none).1
    (singlePut ⟨"b", "r"⟩ ⟨some "a.txt", [1], some "t"⟩ none) (by decide)

end S3Sync
